import Mathlib

/-!
Shallow embedding of the napi publish subsystem of the vary release CLI
(source: src/commands/napiPublish.ts, second revision, plus the
collaborators src/commands/release.ts and src/utils/cmd.ts).

Modelling conventions:
* Paths are component lists (the monorepo root is the empty path); the
  node `path.join(root, x)` becomes list append of the components of x.
* The filesystem is a pair of lists: existing directories and files with
  structured contents.  JSON manifests are kept structured (a `Pkg`
  record) instead of serialized text; `sortPackageJson` only reorders
  keys of the serialized JSON and is therefore the identity here.
* Side effects (logs, directory creation, file writes, external command
  invocations, delegation to the publish collaborator) are recorded in
  an ordered trace; a run result is the state at the stop point, the
  trace so far and an optional fatal error message.
* Error messages follow the source texts with quote characters elided.
* The per-user npm credential file lives outside the monorepo; it is
  modelled as a separate optional content string in the state.
-/

namespace Vary

/-- The vendor extension block `package.json#vary` (interface IVaryConfig). -/
structure VaryCfg where
  keepKeys : List String := []
  wasmName : Option String := none
  wasmWebName : Option String := none
deriving DecidableEq, Repr

/-- The `package.json#napi` block.  The two schema shapes (INapiV2 and
INapiV3) read the same loosely typed object, so one record carries the
fields of both shapes; a concrete manifest populates one of them. -/
structure NapiCfg where
  nameV2 : Option String := none
  packageNameV2 : Option String := none
  triplesAdditional : Option (List String) := none
  triplesDefaults : Option Bool := none
  binaryName : Option String := none
  packageName : Option String := none
  targets : Option (List String) := none
deriving DecidableEq, Repr

/-- A package manifest (interface IPkg plus the dynamic fields the code
reads or writes).  Untyped extra fields used by the vary keepKeys
mechanism are an association list. -/
structure Pkg where
  name : Option String := none
  version : Option String := none
  description : Option String := none
  author : Option String := none
  homepage : Option String := none
  repositoryUrl : Option String := none
  license : Option String := none
  main : Option String := none
  moduleField : Option String := none
  browser : Option String := none
  types : Option String := none
  keywords : Option (List String) := none
  engines : Option String := none
  publishConfig : Option String := none
  scriptsPostinstall : Option String := none
  files : Option (List String) := none
  napi : Option NapiCfg := none
  vary : Option VaryCfg := none
  osTags : Option (List String) := none
  cpuTags : Option (List String) := none
  isPrivate : Bool := false
  dependencies : List (String × String) := []
  devDependencies : List (String × String) := []
  optionalDependencies : List (String × String) := []
  wasiFlag : Bool := false
  extra : List (String × String) := []
deriving DecidableEq, Repr

/-- Contents of a file in the modelled filesystem. -/
inductive FileData where
  /-- a JSON package manifest -/
  | pkg (p : Pkg)
  /-- plain text (readme, license, Cargo.toml and similar) -/
  | text (s : String)
  /-- the pnpm-workspace.yaml contents: its packages glob list -/
  | ws (packages : List String)
  /-- opaque binary or external artifact contents -/
  | bin
deriving DecidableEq, Repr

/-- Mutable state of a run: monorepo filesystem plus the per-user npm
credential file content (none when that file does not exist). -/
structure St where
  dirs : List (List String)
  files : List (List String × FileData)
  npmrc : Option String
deriving DecidableEq, Repr

/-- One observable side effect. -/
inductive Eff where
  | log (msg : String)
  | mkdirE (p : List String)
  | writeE (p : List String)
  | copyE (src tgt : List String)
  | removeE (p : List String)
  | runCmd (c : String)
  | delegatePublish (c : String)
deriving DecidableEq, Repr

/-- External process invocations (the generic command runner and the
publish collaborator). -/
def Eff.isExternal : Eff → Bool
  | .runCmd _ => true
  | .delegatePublish _ => true
  | _ => false

/-- Filesystem mutating effects. -/
def Eff.isWrite : Eff → Bool
  | .mkdirE _ => true
  | .writeE _ => true
  | .copyE _ _ => true
  | .removeE _ => true
  | _ => false

/-- Result of (a phase of) a run: state at the stop point, effect trace,
and the fatal error if one was thrown. -/
structure Outcome where
  st : St
  trace : List Eff
  err : Option String
deriving DecidableEq, Repr

def Outcome.ok (st : St) (trace : List Eff) : Outcome := ⟨st, trace, none⟩

def Outcome.fail (st : St) (trace : List Eff) (e : String) : Outcome :=
  ⟨st, trace, some e⟩

/-- Sequence two phases: on error stop, otherwise continue from the new
state and keep both traces in order. -/
def Outcome.andThen (o : Outcome) (k : St → Outcome) : Outcome :=
  match o.err with
  | some _ => o
  | none =>
    let o2 := k o.st
    { o2 with trace := o.trace ++ o2.trace }

/-- Prefix a trace onto an outcome. -/
def Outcome.withPre (pre : List Eff) (o : Outcome) : Outcome :=
  { o with trace := pre ++ o.trace }

/-- List membership for paths, kept as a plain boolean recursion so the
proofs control its unfolding. -/
def memP (p : List String) : List (List String) → Bool
  | [] => false
  | q :: qs => if p = q then true else memP p qs

/-- First file entry at a path. -/
def lookupF (p : List String) : List (List String × FileData) → Option FileData
  | [] => none
  | e :: es => if e.1 = p then some e.2 else lookupF p es

def St.existsDir (st : St) (p : List String) : Bool := memP p st.dirs

def St.existsFile (st : St) (p : List String) : Bool :=
  (lookupF p st.files).isSome

/-- Model of `existsSync`. -/
def St.existsPath (st : St) (p : List String) : Bool :=
  st.existsDir p || st.existsFile p

def St.getFile (st : St) (p : List String) : Option FileData :=
  lookupF p st.files

/-- Model of `mkdirSync` (call sites guard against pre-existing dirs). -/
def St.mkdir (st : St) (p : List String) : St :=
  { st with dirs := st.dirs ++ [p] }

/-- Model of `writeFileSync`: replace any entry at the path. -/
def St.writeFile (st : St) (p : List String) (d : FileData) : St :=
  { st with files := st.files.filter (fun e => e.1 ≠ p) ++ [(p, d)] }

/-- Model of `removeSync`: drop the path and everything below it. -/
def St.removeRec (st : St) (p : List String) : St :=
  { st with
    dirs := st.dirs.filter (fun q => ¬ p.isPrefixOf q)
    files := st.files.filter (fun e => ¬ p.isPrefixOf e.1) }

/-- Names of the immediate children of a directory, in the order the
state lists them (model of `readdirSync`). -/
def St.childNames (st : St) (p : List String) : List String :=
  (st.dirs ++ st.files.map Prod.fst).filterMap
    (fun q => if q.dropLast = p then q.getLast? else none)

/-- Names of the immediate children that are files. -/
def St.childFileNames (st : St) (p : List String) : List String :=
  (st.files.map Prod.fst).filterMap
    (fun q => if q.dropLast = p then q.getLast? else none)

/-- Render a root-relative path the way the source interpolates it. -/
def pathStr (p : List String) : String := String.intercalate "/" p

/-- JS falsiness of a string (the model keeps string tests at the
character-list level so that terms evaluate by kernel reduction). -/
def strEmpty (s : String) : Bool := s.data.isEmpty

/-- Model of `String.prototype.startsWith`. -/
def strStartsWith (s pre : String) : Bool := pre.data.isPrefixOf s.data

/-- Model of `String.prototype.endsWith`. -/
def strEndsWith (s suf : String) : Bool := suf.data.isSuffixOf s.data

/-- Substring search on character lists. -/
def listContainsSub : List Char → List Char → Bool
  | [], needle => needle.isEmpty
  | c :: t, needle => needle.isPrefixOf (c :: t) || listContainsSub t needle

/-- Model of the JS `String.prototype.includes`. -/
def strContains (hay needle : String) : Bool :=
  listContainsSub hay.data needle.data

/-- Split a character list at newlines (the pieces, separators gone). -/
def splitLinesChar : List Char → List (List Char)
  | [] => [[]]
  | c :: cs =>
    match splitLinesChar cs with
    | [] => [[c]]
    | h :: t => if c = '\n' then [] :: h :: t else (c :: h) :: t

/-- Model of `content.split("\n")`. -/
def splitLines (s : String) : List String :=
  (splitLinesChar s.data).map (fun l => String.mk l)

/-- One architecture catalog entry (interface IArch). -/
structure IArch where
  desc : String
  osTags : List String
  cpuTags : List String
  targetName : String
deriving DecidableEq, Repr

/-- The architecture catalog, in source declaration order (ARCH_MAP). -/
def ARCH_MAP : List (String × IArch) := [
  ("darwin-arm64", ⟨"macOS ARM 64-bit", ["darwin"], ["arm64"], "aarch64-apple-darwin"⟩),
  ("darwin-x64", ⟨"macOS 64-bit", ["darwin"], ["x64"], "x86_64-apple-darwin"⟩),
  ("linux-arm-gnueabihf", ⟨"Linux ARM 32-bit", ["linux"], ["arm"], "armv7-unknown-linux-gnueabihf"⟩),
  ("linux-arm64-gnu", ⟨"Linux ARM 64-bit", ["linux"], ["arm64"], "aarch64-unknown-linux-gnu"⟩),
  ("linux-arm64-musl", ⟨"Linux ARM 64-bit (musl)", ["linux"], ["arm64"], "aarch64-unknown-linux-musl"⟩),
  ("linux-x64-gnu", ⟨"Linux 64-bit", ["linux"], ["x64"], "x86_64-unknown-linux-gnu"⟩),
  ("linux-x64-musl", ⟨"Linux 64-bit (musl)", ["linux"], ["x64"], "x86_64-unknown-linux-musl"⟩),
  ("win32-arm64-msvc", ⟨"Windows ARM 64-bit", ["win32"], ["arm64"], "aarch64-pc-windows-msvc"⟩),
  ("win32-x64-msvc", ⟨"Windows 64-bit", ["win32"], ["x64"], "x86_64-pc-windows-msvc"⟩)]

/-- Catalog lookup by platform key. -/
def lookupArch (k : String) : Option IArch :=
  (ARCH_MAP.filter (fun e => e.1 = k)).head?.map Prod.snd

/-- `Object.values(ARCH_MAP).map(i => i.targetName)`. -/
def allSupportTargetList : List String := ARCH_MAP.map (fun e => e.2.targetName)

/-- The inputs of one invocation: parsed root manifest, resolved napi
cli version, command line flags, environment variables, host platform
and the initial filesystem state. -/
structure Env where
  rootPkg : Pkg
  cliVersion : String
  argvRoot : Bool := false
  argvWasm : Bool := false
  argvWasmWeb : Bool := false
  argvNapiWasm : Bool := false
  argvWasmOpt : Option (Option (List String)) := none
  argvTag : Option String := none
  npmToken : Option String := none
  platform : String := "linux"
  cpuArch : String := "x64"
  skipWasmOptTips : Bool := false
  skipWasmOpt : Bool := false
  st0 : St
deriving DecidableEq, Repr

/-- Normalized napi configuration (Required INapiV3). -/
structure Cfg where
  binaryName : String
  packageName : String
  targets : List String
deriving DecidableEq, Repr

/-- Message of `throwMissingError`. -/
def missingNapi (k : String) : String := "package.json#napi." ++ k ++ " is required"

/-- JS `value || throwMissingError(key)` for string fields: both an
absent field and an empty string are falsy. -/
def strOrMissing (o : Option String) (k : String) : Except String String :=
  match o with
  | some s => if strEmpty s then .error (missingNapi k) else .ok s
  | none => .error (missingNapi k)

/-- `detectNapiCLIVersion`: checks the root manifest exists and declares
the napi cli dependency, then classifies the resolved cli version by its
leading segment.  Returns (isV2, isV3) and the log it emits. -/
def detectNapiCLI (env : Env) : Except String (Bool × Bool × List Eff) :=
  if ¬ env.st0.existsPath ["package.json"] then
    .error "package.json not found in root dir"
  else
    match (env.rootPkg.devDependencies ++ env.rootPkg.dependencies).lookup "@napi-rs/cli" with
    | none => .error "Cannot find @napi-rs/cli in root package.json, please install it"
    | some depSpec =>
      if strEmpty depSpec then
        .error "Cannot find @napi-rs/cli in root package.json, please install it"
      else
        .ok (strStartsWith env.cliVersion "2.", strStartsWith env.cliVersion "3.",
          [Eff.log ("Using @napi-rs/cli@" ++ env.cliVersion)])

/-- `getNapiCompatConfig`: reconcile the two manifest shapes into the
normalized config, failing on missing fields exactly as the source. -/
def getNapiCompatConfig (isV2 isV3 : Bool) (napi : Option NapiCfg) : Except String Cfg :=
  match napi with
  | none => .error "package.json#napi is required"
  | some c =>
    if isV2 then
      let manual : Bool := (c.triplesDefaults = some false) &&
        (match c.triplesAdditional with | some l => !l.isEmpty | none => false)
      if manual then do
        let b ← strOrMissing c.nameV2 "name"
        let p ← strOrMissing c.packageNameV2 "package"
        let t ← (match c.triplesAdditional with
          | some l => Except.ok l
          | none => Except.error (missingNapi "triples"))
        .ok ⟨b, p, t⟩
      else
        .error "package.json#napi.triples.defaults must be false, and manually config all platforms"
    else if isV3 then
      let hasTargets : Bool :=
        match c.targets with | some l => !l.isEmpty | none => false
      if hasTargets then do
        let b ← strOrMissing c.binaryName "binaryName"
        let p ← strOrMissing c.packageName "packageName"
        let t ← (match c.targets with
          | some l => Except.ok l
          | none => Except.error (missingNapi "targets"))
        .ok ⟨b, p, t⟩
      else .error "package.json#napi.targets is required and not empty"
    else .error "Unsupported napi cli version"

/-- Case-insensitive literal prefix match, returning the remainder. -/
def ciPrefixDrop (pat : List Char) (s : List Char) : Option (List Char) :=
  match pat, s with
  | [], rest => some rest
  | _ :: _, [] => none
  | p :: ps, c :: cs => if c.toLower = p.toLower then ciPrefixDrop ps cs else none

/-- Model of the auth line test, the regex
`^\s*\/\/registry\.npmjs\.com\/:[_-]authToken=` with the `i` flag
(whitespace restricted to the ASCII class). -/
def isAuthTokenLine (line : String) : Bool :=
  let rest := line.toList.dropWhile Char.isWhitespace
  match ciPrefixDrop "//registry.npmjs.com/:".toList rest with
  | some (c :: cs) =>
    (c == '_' || c == '-') && (ciPrefixDrop "authToken=".toList cs).isSome
  | _ => false

/-- The command line `releaseOnly` builds for the publish collaborator
(src/commands/release.ts); an empty tag string is falsy and dropped. -/
def releaseOnlyCmd (tag : Option String) : String :=
  match tag with
  | some t => if strEmpty t then "changeset publish" else "changeset publish --tag " ++ t
  | none => "changeset publish"

/-- The publish-only collaborator: shells out to the registry publish
command, forwarding the optional tag. -/
def releaseOnly (st : St) (tag : Option String) : Outcome :=
  Outcome.ok st [Eff.delegatePublish (releaseOnlyCmd tag)]

/-- Source message (quote characters elided): NPM_TOKEN env var is
required to publish, please set it. -/
def missingTokenMsg : String := "NPM_TOKEN env var is required to publish, please set it"

/-- The credential line appended or created for a token. -/
def authTokenLineFor (tok : String) : String :=
  "//registry.npmjs.com/:_authToken=" ++ tok ++ "\n"

/-- The registry auth and publish gate (`publish` in the source): ensure
the user credential file holds an auth token line for the registry, then
delegate to the publish collaborator. -/
def publishGate (st : St) (npmToken : Option String) (tag : Option String) : Outcome :=
  match st.npmrc with
  | some content =>
    let pre := [Eff.log "Found existing user .npmrc file"]
    match (splitLines content).find? isAuthTokenLine with
    | some _ =>
      Outcome.withPre
        (pre ++ [Eff.log "Found existing auth token for the npm registry in the user .npmrc file"])
        (releaseOnly st tag)
    | none =>
      let pre2 := pre ++
        [Eff.log "Didnt find existing auth token for the npm registry in the user .npmrc file, creating one"]
      match npmToken with
      | some tok =>
        if strEmpty tok then Outcome.fail st pre2 missingTokenMsg
        else
          let st2 := { st with npmrc := some (content ++ "\n" ++ authTokenLineFor tok) }
          Outcome.withPre (pre2 ++ [Eff.writeE ["HOME", ".npmrc"]]) (releaseOnly st2 tag)
      | none => Outcome.fail st pre2 missingTokenMsg
  | none =>
    let pre := [Eff.log "No user .npmrc file found, creating one"]
    match npmToken with
    | some tok =>
      if strEmpty tok then Outcome.fail st pre missingTokenMsg
      else
        let st2 := { st with npmrc := some (authTokenLineFor tok) }
        Outcome.withPre (pre ++ [Eff.writeE ["HOME", ".npmrc"]]) (releaseOnly st2 tag)
    | none => Outcome.fail st pre missingTokenMsg

/-- The advisory marker section looked up in Cargo.toml. -/
def wasmOptTitle : String := "[package.metadata.wasm-pack.profile.release]"

/-- Text content of a file (non-text entries read as empty). -/
def fileContentText (st : St) (p : List String) : String :=
  match st.getFile p with
  | some (FileData.text s) => s
  | _ => ""

/-- `checkWasmOpt`: advisory logs when a Cargo.toml lacks the explicit
wasm-opt marker (printTips; quote characters elided from the text). -/
def checkWasmOptLogs (p : List String) (content : String) : List Eff :=
  let hasConfig := strContains content wasmOptTitle && strContains content "wasm-opt"
  if hasConfig then []
  else
    [Eff.log "",
     Eff.log ("Cannot find the wasm-opt config in " ++ pathStr p ++ ", please set:"),
     Eff.log wasmOptTitle,
     Eff.log "wasm-opt = false",
     Eff.log ""]

/-- `wasmOptShouldCloseTips`: the pre-optimization advisory. -/
def wasmOptTipsLogs (env : Env) (st : St) : List Eff :=
  if env.skipWasmOptTips then []
  else if ¬ st.existsPath ["Cargo.toml"] then []
  else
    let rootContent := fileContentText st ["Cargo.toml"]
    if ¬ strContains rootContent "[workspace]" then
      checkWasmOptLogs ["Cargo.toml"] rootContent
    else if st.existsPath ["crates", "binding_wasm", "Cargo.toml"] then
      checkWasmOptLogs ["crates", "binding_wasm", "Cargo.toml"]
        (fileContentText st ["crates", "binding_wasm", "Cargo.toml"])
    else if st.existsPath ["crates", "wasm", "Cargo.toml"] then
      checkWasmOptLogs ["crates", "wasm", "Cargo.toml"]
        (fileContentText st ["crates", "wasm", "Cargo.toml"])
    else []

/-- Discover the `.wasm` entries of one candidate directory together
with the logs printed for them. -/
def collectFromDir (st : St) (dir : List String) : List Eff × List (List String) :=
  if st.existsPath dir && st.existsDir dir then
    let names := (st.childNames dir).filter (fun n => strEndsWith n ".wasm")
    (names.map (fun n => Eff.log ("Wasm-opt: " ++ pathStr (dir ++ [n]))),
     names.map (fun n => dir ++ [n]))
  else ([], [])

/-- Discovery plus tool download plus the parallel optimization runs
(the body shared by both shapes of the wasmPathOrDir argument). -/
def runOptCollect (env : Env) (st : St) (outDirs : List (List String))
    (fileCase : Option (List String)) : Outcome :=
  let collected := outDirs.map (collectFromDir st)
  let dirLogs := (collected.map Prod.fst).flatten
  let dirFiles := (collected.map Prod.snd).flatten
  let filepart : List Eff × List (List String) :=
    match fileCase with
    | some p =>
      if st.existsFile p then ([Eff.log ("Wasm-opt: " ++ pathStr p)], [p]) else ([], [])
    | none => ([], [])
  let wasmFilePaths := dirFiles ++ filepart.2
  let pre := dirLogs ++ filepart.1
  if wasmFilePaths.isEmpty then
    Outcome.ok st (pre ++ [Eff.log "Cannot find wasm file, skip wasm-opt"])
  else
    match (if env.platform = "darwin" then some "macos"
           else if env.platform = "linux" then some "linux" else none) with
    | none => Outcome.fail st pre ("Unsupported platform: " ++ env.platform)
    | some platformMark =>
      match (if env.cpuArch = "x64" then some "x86_64"
             else if env.cpuArch = "arm64" then some "arm64" else none) with
      | none => Outcome.fail st pre ("Unsupported arch: " ++ env.cpuArch)
      | some archMark =>
        let version := "version_116"
        let url := "https://github.com/WebAssembly/binaryen/releases/download/" ++ version ++
          "/binaryen-" ++ version ++ "-" ++ archMark ++ "-" ++ platformMark ++ ".tar.gz"
        let pre2 := pre ++ [Eff.log ("Platform: " ++ env.platform),
          Eff.log ("Arch: " ++ env.cpuArch), Eff.log ("Version: " ++ version),
          Eff.log ("URL: " ++ url)]
        let cacheDir := ["target", ".wasm-cache"]
        let stepCache : St × List Eff :=
          if ¬ st.existsPath cacheDir then (st.mkdir cacheDir, [Eff.mkdirE cacheDir])
          else (st, [])
        let tarPath := cacheDir ++ ["binaryen.tar.gz"]
        let dlTr : List Eff :=
          if ¬ stepCache.1.existsPath tarPath then
            [Eff.log ("Downloading " ++ url),
             Eff.runCmd ("curl -L " ++ url ++ " -o " ++ pathStr tarPath),
             Eff.log ("Unzip " ++ pathStr tarPath),
             Eff.runCmd ("tar -xvf " ++ pathStr tarPath ++ " -C " ++ pathStr cacheDir)]
          else []
        let optBin := pathStr (cacheDir ++ ["binaryen-" ++ version, "bin", "wasm-opt"])
        let optTr := wasmFilePaths.map
          (fun f => Eff.runCmd (optBin ++ " -Oz -o " ++ pathStr f ++ " " ++ pathStr f))
        Outcome.ok stepCache.1 (pre2 ++ stepCache.2 ++ dlTr ++ [Eff.log "Optimizing"] ++ optTr)

/-- `runOpt`: the fallible inner body of the optimization pass. -/
def runOpt (env : Env) (wasmPathOrDir : Option (List String)) (st : St) : Outcome :=
  if env.skipWasmOpt then Outcome.ok st []
  else
    match wasmPathOrDir with
    | some p =>
      if ¬ st.existsPath p then
        Outcome.fail st [] "The specified wasm file or dir does not exist"
      else
        runOptCollect env st (if st.existsDir p then [p] else []) (some p)
    | none =>
      runOptCollect env st [["target", "wasm"], ["target", "wasm_web"]] none

/-- `performWasmOpt`: advisory, then the inner pass with every failure
caught and logged as a warning. -/
def performWasmOpt (env : Env) (wasmPathOrDir : Option (List String)) (st : St) : Outcome :=
  let pre := [Eff.log "Start wasm opt ..."] ++ wasmOptTipsLogs env st
  let o := runOpt env wasmPathOrDir st
  match o.err with
  | some e =>
    Outcome.ok o.st (pre ++ o.trace ++
      [Eff.log ("Wasm opt failed, Error: " ++ e), Eff.log "Wasm opt done"])
  | none => Outcome.ok o.st (pre ++ o.trace ++ [Eff.log "Wasm opt done"])

/-- Classified wasi build outputs (interface INapiWasiOutput). -/
structure WasiOutput where
  wasiWorker : List (List String)
  wasmFile : List String
  entryForNode : List String
  entryForBrowser : List String
  extra : List (List String)
  allFiles : List (List String)
deriving DecidableEq, Repr

/-- The classification loop of `resolveWasiOutput` over the file names
of the output directory, in order; later matches of a category replace
earlier ones exactly as the source assignments do. -/
def classifyWasi (dir : List String) (names : List String) :
    List (List String) × Option (List String) × Option (List String) × Option (List String) :=
  names.foldl
    (fun acc n =>
      let p := dir ++ [n]
      if strContains n "wasi-worker" then (acc.1 ++ [p], acc.2.1, acc.2.2.1, acc.2.2.2)
      else if strEndsWith n ".wasm" then (acc.1, some p, acc.2.2.1, acc.2.2.2)
      else if strEndsWith n ".wasi.cjs" then (acc.1, acc.2.1, some p, acc.2.2.2)
      else if strEndsWith n ".wasi-browser.js" then (acc.1, acc.2.1, acc.2.2.1, some p)
      else acc)
    ([], none, none, none)

/-- `resolveWasiOutput`: suffix-pattern discovery of the four required
wasi artifacts (error texts with quote characters elided). -/
def resolveWasiOutput (st : St) (dir : List String) : Except String WasiOutput :=
  if ¬ st.existsPath dir then .error "The wasi output dir does not exist"
  else
    let names := (st.childFileNames dir).filter (fun n => n ≠ ".DS_Store")
    let c := classifyWasi dir names
    if c.1.isEmpty then .error "Not found wasi worker files, like name.mjs"
    else
      match c.2.1 with
      | none => .error "Not found wasi file, like name.wasm"
      | some w =>
        match c.2.2.1 with
        | none => .error "Not found wasi cjs entry file, like name.wasi.cjs"
        | some ne =>
          match c.2.2.2 with
          | none => .error "Not found wasi browser entry file, like name.wasi-browser.js"
          | some be =>
            let extraFiles := [["index.d.ts"]]
            .ok ⟨c.1, w, ne, be, extraFiles, c.1 ++ [w, ne, be] ++ extraFiles⟩

/-- The fixed stub root directory. -/
def npmDirP : List String := ["npm"]

/-- The stub manifest created for one catalog entry: only the OS and
CPU constraint fields (`ARCH_MAP[dirName].pkg`). -/
def stubPkgFor (a : IArch) : Pkg := { osTags := some a.osTags, cpuTags := some a.cpuTags }

/-- The effect trace of the stub creation branch: it is a fixed list
because the created directory layout only depends on the catalog. -/
def stubCreateTrace : List Eff :=
  [Eff.log "The npm dir does not exist, will be auto generated.", Eff.mkdirE npmDirP] ++
  ARCH_MAP.flatMap (fun e =>
    [Eff.mkdirE (npmDirP ++ [e.1]), Eff.log ("Create npm/" ++ e.1 ++ " dir"),
     Eff.writeE (npmDirP ++ [e.1, "README.md"]), Eff.writeE (npmDirP ++ [e.1, "package.json"])]) ++
  [Eff.log "Create npm/* dir successful"]

/-- State change of the stub creation branch: the stub root plus one
directory per catalog entry, each with an empty readme and the
OS/CPU-only manifest, in catalog iteration order. -/
def createStubs (st : St) : St :=
  ARCH_MAP.foldl
    (fun s e =>
      let dirPath := npmDirP ++ [e.1]
      ((s.mkdir dirPath).writeFile (dirPath ++ ["README.md"]) (FileData.text "")).writeFile
        (dirPath ++ ["package.json"]) (FileData.pkg (stubPkgFor e.2)))
    (st.mkdir npmDirP)

/-- The stub generation block of `release`: when the stub root does not
exist, create it and one directory per catalog entry; otherwise do
nothing (the check is on the stub root only, not on the per-arch
directories). -/
def ensureNpmDirs (st : St) : Outcome :=
  if st.existsPath npmDirP then
    Outcome.ok st [Eff.log "The npm dir exists"]
  else
    Outcome.ok (createStubs st) stubCreateTrace

/-- `Object.assign(pkg, globalProps)` where globalProps is the pick of
author, homepage, repository, engines, license and publishConfig from
the root manifest: fields present on the root override the stub. -/
def assignGlobalProps (root p : Pkg) : Pkg :=
  { p with
    author := if root.author.isSome then root.author else p.author
    homepage := if root.homepage.isSome then root.homepage else p.homepage
    repositoryUrl := if root.repositoryUrl.isSome then root.repositoryUrl else p.repositoryUrl
    engines := if root.engines.isSome then root.engines else p.engines
    license := if root.license.isSome then root.license else p.license
    publishConfig := if root.publishConfig.isSome then root.publishConfig else p.publishConfig }

/-- The sub-package patch loop of the default path, one stub directory
at a time in listing order.  A directory whose basename is not a catalog
key makes the original crash with a TypeError while interpolating the
missing descriptor, which this model maps to a fatal error. -/
def patchLoop (rootPkg : Pkg) (cfg : Cfg) (names : List String) (st : St) : Outcome :=
  match names with
  | [] => Outcome.ok st []
  | n :: rest =>
    let dir := npmDirP ++ [n]
    let pkgPath := dir ++ ["package.json"]
    let readmePath := dir ++ ["README.md"]
    match st.getFile pkgPath with
    | some (FileData.pkg p) =>
      let pkgName := cfg.packageName ++ "-" ++ n
      match lookupArch n with
      | none =>
        Outcome.fail st [] "TypeError: Cannot read properties of undefined (reading desc)"
      | some info =>
        let newReadme := "# `" ++ pkgName ++ "`\n\nThis is the `" ++ info.desc ++
          "` binary for [`" ++ rootPkg.name.getD "" ++ "`](" ++
          rootPkg.repositoryUrl.getD "" ++ ").\n"
        let mainName := cfg.binaryName ++ "." ++ n ++ ".node"
        let patched : Pkg := { p with
          name := some pkgName
          description := some ("This is the " ++ info.desc ++ " binary for " ++
            rootPkg.name.getD "" ++ ".")
          version := rootPkg.version
          main := some mainName
          files := some [mainName] }
        let merged := assignGlobalProps rootPkg patched
        if ¬ st.existsPath ["LICENSE"] then
          Outcome.fail st [] "LICENSE file is required in root dir"
        else
          match st.getFile ["LICENSE"] with
          | some licData =>
            let st1 := st.writeFile (dir ++ ["LICENSE"]) licData
            let st2 := st1.writeFile readmePath (FileData.text newReadme)
            let st3 := st2.writeFile pkgPath (FileData.pkg merged)
            (Outcome.ok st3 [Eff.copyE ["LICENSE"] (dir ++ ["LICENSE"]),
              Eff.writeE readmePath, Eff.writeE pkgPath,
              Eff.log ("Patched: " ++ pkgName)]).andThen
              (fun st4 => patchLoop rootPkg cfg rest st4)
          | none => Outcome.fail st [] "copy failed: LICENSE is not a file"
    | _ => Outcome.fail st [] ("Cannot load module " ++ pathStr pkgPath)

/-- The default path after the patch loop: register the stub glob in the
workspace file, flip the root manifest to private, reinstall, then hand
off to the publish gate. -/
def defaultBranch (env : Env) (cfg : Cfg) (names : List String) (st : St) : Outcome :=
  Outcome.withPre [Eff.log "Will release the sub packages."]
    ((patchLoop env.rootPkg cfg names st).andThen (fun st2 =>
      match st2.getFile ["pnpm-workspace.yaml"] with
      | some (FileData.ws pkgs) =>
        let st3 := st2.writeFile ["pnpm-workspace.yaml"] (FileData.ws (pkgs ++ ["./npm/*"]))
        let newRoot := { env.rootPkg with isPrivate := true }
        let st4 := st3.writeFile ["package.json"] (FileData.pkg newRoot)
        (Outcome.ok st4 [Eff.writeE ["pnpm-workspace.yaml"], Eff.writeE ["package.json"],
          Eff.log "Reinstalling...", Eff.runCmd "pnpm i --no-frozen-lockfile"]).andThen
          (fun st5 => publishGate st5 env.npmToken env.argvTag)
      | _ => Outcome.fail st2 [] "Cannot read pnpm-workspace.yaml"))

/-- The allow-listed manifest fields of the root publish manifest
(`pick` in the root branch; the second revision also keeps napi). -/
def pickRootPublishPkg (r : Pkg) : Pkg :=
  { name := r.name, version := r.version, main := r.main, types := r.types,
    description := r.description, author := r.author, homepage := r.homepage,
    repositoryUrl := r.repositoryUrl, keywords := r.keywords, license := r.license,
    engines := r.engines, napi := r.napi }

/-- The root release branch (`--root`). -/
def releaseRoot (env : Env) (cfg : Cfg) (names : List String) (st : St) : Outcome :=
  let pre := [Eff.log "Will release the root package.", Eff.runCmd "pnpm build"]
  let optionalDeps := names.map
    (fun n => (cfg.packageName ++ "-" ++ n, env.rootPkg.version.getD ""))
  let publishDir := ["dist"]
  let rem : St × List Eff :=
    if st.existsPath publishDir then (st.removeRec publishDir, [Eff.removeE publishDir])
    else (st, [])
  let st1 := rem.1.mkdir publishDir
  let base := pickRootPublishPkg env.rootPkg
  let base2 := { base with optionalDependencies := optionalDeps }
  let base3 := match env.rootPkg.scriptsPostinstall with
    | some s => if strEmpty s then base2 else { base2 with scriptsPostinstall := some s }
    | none => base2
  let publishPkg := match env.rootPkg.vary with
    | some v =>
      let withKeep := v.keepKeys.foldl
        (fun acc k => { acc with extra := acc.extra.filter (fun e => e.1 ≠ k) ++
          [(k, (env.rootPkg.extra.lookup k).getD "")] }) base3
      { withKeep with vary := env.rootPkg.vary }
    | none => base3
  let st2 := st1.writeFile (publishDir ++ ["package.json"]) (FileData.pkg publishPkg)
  let pre2 := pre ++ rem.2 ++ [Eff.mkdirE publishDir, Eff.writeE (publishDir ++ ["package.json"])]
  let filesOk : Bool := match env.rootPkg.files with | some l => !l.isEmpty | none => false
  if ¬ filesOk then
    Outcome.fail st2 pre2 "package.json#files is required, e.g. [index.js]"
  else
    let files := "LICENSE" :: "README.md" :: (env.rootPkg.files.getD [])
    let o := files.foldl
      (fun acc f =>
        acc.andThen (fun stc =>
          if ¬ stc.existsPath [f] then
            if f = "index.js" then Outcome.fail stc [] ("File not found: " ++ f)
            else Outcome.ok stc [Eff.log ("File not found: " ++ f ++ ", skip copy")]
          else
            match stc.getFile [f] with
            | some d =>
              Outcome.ok (stc.writeFile (publishDir ++ [f]) d)
                [Eff.copyE [f] (publishDir ++ [f])]
            | none => Outcome.fail stc [] ("copy failed: " ++ f ++ " is a directory")))
      (Outcome.ok st2 [])
    (Outcome.withPre pre2 o).andThen
      (fun st3 => Outcome.ok st3 [Eff.runCmd "npm publish --registry https://registry.npmjs.com/"])

/-- The allow-listed manifest fields shared by both wasm publish
manifests (`pick` in the wasm branches). -/
def pickWasmPublishPkg (r : Pkg) : Pkg :=
  { version := r.version, description := r.description, author := r.author,
    homepage := r.homepage, repositoryUrl := r.repositoryUrl, keywords := r.keywords,
    license := r.license, publishConfig := r.publishConfig }

/-- JS truthiness of an optional string (undefined and empty falsy). -/
def truthyStr (o : Option String) : Bool :=
  match o with | some s => !(strEmpty s) | none => false

/-- Copy a list of build outputs into the publish directory, logging
each one (the shared copy loop of the wasm branches). -/
def copyWasmOutputs (outDir : List String) (outputs : List (List String)) (st : St) : Outcome :=
  outputs.foldl
    (fun acc f =>
      acc.andThen (fun stc =>
        match stc.getFile f with
        | some d =>
          let tgt := outDir ++ [f.getLastD ""]
          Outcome.ok (stc.writeFile tgt d)
            [Eff.copyE f tgt, Eff.log ("Copy wasm output: " ++ f.getLastD "")]
        | none => Outcome.fail stc [] ("copy failed: " ++ pathStr f ++ " is not a file")))
    (Outcome.ok st [])

/-- The wasm (node) and wasm (wasi) release branch, entered when either
of the two flags is set. -/
def releaseWasmBranch (env : Env) (cfg : Cfg) (st : St) : Outcome :=
  if env.argvWasm && env.argvNapiWasm then
    Outcome.fail st [] "You cannot use --wasm and --napi-wasm together"
  else
    let pre : List Eff :=
      (if env.argvWasm then [Eff.log "Will release the wasm package."] else []) ++
      (if env.argvNapiWasm then [Eff.log "Will release the wasm (napi wasi) package."] else [])
    let runtimeDep : Except String (Option String) :=
      if env.argvNapiWasm then
        match (env.rootPkg.devDependencies ++ env.rootPkg.dependencies).lookup "@napi-rs/wasm-runtime" with
        | some v => if strEmpty v then .error "Please install @napi-rs/wasm-runtime" else .ok (some v)
        | none => .error "Please install @napi-rs/wasm-runtime"
      else .ok none
    match runtimeDep with
    | .error e => Outcome.fail st pre e
    | .ok wasmRuntimeVersion =>
      let pre2 := pre ++ [Eff.runCmd "pnpm build:wasm"]
      -- copy the helper loader and postinstall scripts shipped with the
      -- tool itself into the monorepo root (opaque external sources)
      let st1 := (st.writeFile ["index.js"] FileData.bin).writeFile ["postinstall.js"] FileData.bin
      let pre3 := pre2 ++
        [Eff.log "Generate wasm file: index.js", Eff.copyE ["helpers", "napi", "index.js"] ["index.js"],
         Eff.log "Generate wasm file: postinstall.js", Eff.copyE ["helpers", "napi", "postinstall.js"] ["postinstall.js"]]
      if ¬ st1.existsPath ["binding.js"] then
        Outcome.fail st1 pre3 "The binding.js file does not exist."
      else
        match env.rootPkg.files with
        | none => Outcome.fail st1 pre3 "TypeError: Cannot read properties of undefined (reading includes)"
        | some fl =>
          if ¬ (["binding.js", "index.js", "postinstall.js"].all (fun f => fl.contains f)) then
            Outcome.fail st1 pre3 "package.json#files must includes binding.js, index.js, postinstall.js"
          else
            let warns :=
              (["index.d.ts", "CHANGELOG.md"].filter (fun f => ¬ fl.contains f)).map
                (fun f => Eff.log ("The file " ++ f ++ " is recommended to be included in package.json#files")) ++
              (if env.rootPkg.main ≠ some "index.js" then
                [Eff.log ("package.json#main must be index.js, but got " ++ env.rootPkg.main.getD "undefined")]
              else [])
            let pre4 := pre3 ++ warns
            if ¬ truthyStr env.rootPkg.scriptsPostinstall then
              Outcome.fail st1 pre4 "package.json must include the scripts.postinstall for wasm fallback"
            else
              let targetDir := ["target", "wasm"]
              if ¬ st1.existsPath targetDir then
                Outcome.fail st1 pre4 "The target/wasm dir does not exist. Please build first"
              else
                (Outcome.withPre pre4 (performWasmOpt env (some targetDir) st1)).andThen (fun st2 =>
                  let outDir := ["target", "wasm_publish"]
                  let rem : St × List Eff :=
                    if st2.existsPath outDir then (st2.removeRec outDir, [Eff.removeE outDir])
                    else (st2, [])
                  let st3 := rem.1.mkdir outDir
                  let nodeOutputs : List (List String) :=
                    if env.argvWasm then
                      ((st3.childNames targetDir).filter
                        (fun n => strEndsWith n ".wasm" || strEndsWith n ".js" || strEndsWith n ".d.ts")).map
                        (fun n => targetDir ++ [n])
                    else []
                  let wasiRes : Except String (Option WasiOutput) :=
                    if env.argvNapiWasm then (resolveWasiOutput st3 targetDir).map some
                    else .ok none
                  match wasiRes with
                  | .error e => Outcome.fail st3 (rem.2 ++ [Eff.mkdirE outDir]) e
                  | .ok wasiOut =>
                    let outputs := nodeOutputs ++ (match wasiOut with
                      | some w => w.allFiles
                      | none => [])
                    (Outcome.withPre (rem.2 ++ [Eff.mkdirE outDir])
                      (copyWasmOutputs outDir outputs st3)).andThen (fun st4 =>
                      let wasmName :=
                        if truthyStr (env.rootPkg.vary.bind VaryCfg.wasmName) then
                          (env.rootPkg.vary.bind VaryCfg.wasmName).getD ""
                        else cfg.packageName ++ "-wasm"
                      let readmeContent :=
                        if env.argvWasm then
                          "# " ++ wasmName ++ "\n\nThis is the WASM binary for [`" ++
                            env.rootPkg.name.getD "" ++ "`](" ++ env.rootPkg.repositoryUrl.getD "" ++ ").\n"
                        else
                          "# " ++ wasmName ++ " (wasi)\n\n> This package can be used for both Node.js and Web envs.\n\nThis is the WASM binary for [`" ++
                            env.rootPkg.name.getD "" ++ "`](" ++ env.rootPkg.repositoryUrl.getD "" ++ ").\n"
                      let st5 := st4.writeFile (outDir ++ ["README.md"]) (FileData.text readmeContent)
                      let base := pickWasmPublishPkg env.rootPkg
                      let base2 :=
                        if env.argvWasm then { base with main := some "index.js" } else base
                      let base3 :=
                        match wasiOut with
                        | some w =>
                          { base2 with
                            main := some (pathStr w.entryForNode)
                            browser := some (pathStr w.entryForBrowser)
                            wasiFlag := true
                            dependencies := [("@napi-rs/wasm-runtime", wasmRuntimeVersion.getD "")] }
                        | none => base2
                      let newPkg := { base3 with types := some "index.d.ts", name := some wasmName }
                      let st6 := st5.writeFile (outDir ++ ["package.json"]) (FileData.pkg newPkg)
                      let tr := [Eff.log ("Wasm package name: " ++ wasmName),
                        Eff.log "Create readme: README.md", Eff.writeE (outDir ++ ["README.md"]),
                        Eff.writeE (outDir ++ ["package.json"])]
                      if ¬ st6.existsPath ["LICENSE"] then
                        Outcome.fail st6 tr "LICENSE file is required in root dir"
                      else
                        match st6.getFile ["LICENSE"] with
                        | some licData =>
                          let st7 := st6.writeFile (outDir ++ ["LICENSE"]) licData
                          Outcome.ok st7 (tr ++ [Eff.copyE ["LICENSE"] (outDir ++ ["LICENSE"]),
                            Eff.runCmd "npm publish --registry https://registry.npmjs.com/"])
                        | none => Outcome.fail st6 tr "copy failed: LICENSE is not a file"))

/-- The wasm (web) release branch (`--wasm-web`). -/
def releaseWasmWebBranch (env : Env) (cfg : Cfg) (st : St) : Outcome :=
  let pre := [Eff.log "Will release the wasm (web) package.", Eff.runCmd "pnpm build:wasm:web"]
  let targetDir := ["target", "wasm_web"]
  if ¬ st.existsPath targetDir then
    Outcome.fail st pre "The target/wasm_web dir does not exist. Please build first"
  else
    (Outcome.withPre pre (performWasmOpt env (some targetDir) st)).andThen (fun st2 =>
      let outDir := ["target", "wasm_web_publish"]
      let rem : St × List Eff :=
        if st2.existsPath outDir then (st2.removeRec outDir, [Eff.removeE outDir])
        else (st2, [])
      let st3 := rem.1.mkdir outDir
      let outputs := ((st3.childNames targetDir).filter
        (fun n => strEndsWith n ".wasm" || strEndsWith n ".js" || strEndsWith n ".d.ts")).map
        (fun n => targetDir ++ [n])
      (Outcome.withPre (rem.2 ++ [Eff.mkdirE outDir])
        (copyWasmOutputs outDir outputs st3)).andThen (fun st4 =>
        let wasmName :=
          if truthyStr (env.rootPkg.vary.bind VaryCfg.wasmWebName) then
            (env.rootPkg.vary.bind VaryCfg.wasmWebName).getD ""
          else cfg.packageName ++ "-wasm-web"
        let readmeContent := "# " ++ wasmName ++ "\n\nThis is the WASM (Web) binary for [`" ++
          env.rootPkg.name.getD "" ++ "`](" ++ env.rootPkg.repositoryUrl.getD "" ++ ").\n"
        let st5 := st4.writeFile (outDir ++ ["README.md"]) (FileData.text readmeContent)
        let base := pickWasmPublishPkg env.rootPkg
        let newPkg := { base with
          moduleField := some "index.js"
          types := some "index.d.ts"
          name := some wasmName }
        let st6 := st5.writeFile (outDir ++ ["package.json"]) (FileData.pkg newPkg)
        let tr := [Eff.log ("Wasm (web) package name: " ++ wasmName),
          Eff.log "Create readme: README.md", Eff.writeE (outDir ++ ["README.md"]),
          Eff.writeE (outDir ++ ["package.json"])]
        if ¬ st6.existsPath ["LICENSE"] then
          Outcome.fail st6 tr "LICENSE file is required in root dir"
        else
          match st6.getFile ["LICENSE"] with
          | some licData =>
            let st7 := st6.writeFile (outDir ++ ["LICENSE"]) licData
            Outcome.ok st7 (tr ++ [Eff.copyE ["LICENSE"] (outDir ++ ["LICENSE"]),
              Eff.runCmd "npm publish --registry https://registry.npmjs.com/"])
          | none => Outcome.fail st6 tr "copy failed: LICENSE is not a file"))

/-- The target triple validation at the top of `release`: unrecognized
triples abort the run.  Note that the second log line interpolates the
configured target list, not the catalog (the source does exactly that). -/
def validateTargetsPhase (cfg : Cfg) (st : St) : Outcome :=
  let notSupport := cfg.targets.filter (fun t => ¬ allSupportTargetList.contains t)
  if notSupport.isEmpty then Outcome.ok st []
  else
    Outcome.fail st
      [Eff.log ("Not support compililing these platforms config: " ++
        String.intercalate ", " notSupport),
       Eff.log ("Supported platforms: " ++ String.intercalate ", " cfg.targets)]
      "Unsupported platform"

/-- The `release` closure: validation, stub generation, then exactly one
of the four branches picked from the flags. -/
def releasePhase (env : Env) (cfg : Cfg) (st : St) : Outcome :=
  (validateTargetsPhase cfg st).andThen (fun st1 =>
    (ensureNpmDirs st1).andThen (fun st2 =>
      let names := (st2.childNames npmDirP).filter (fun n => n ≠ ".DS_Store")
      if env.argvRoot then releaseRoot env cfg names st2
      else if env.argvWasm || env.argvNapiWasm then releaseWasmBranch env cfg st2
      else if env.argvWasmWeb then releaseWasmWebBranch env cfg st2
      else defaultBranch env cfg names st2))

/-- The whole `napiPublish` command: wasm-opt shortcut, cli version
detection, root manifest assertions, config normalization, release. -/
def napiPublishRun (env : Env) : Outcome :=
  match env.argvWasmOpt with
  | some pathArg => performWasmOpt env pathArg env.st0
  | none =>
    match detectNapiCLI env with
    | .error e => Outcome.fail env.st0 [] e
    | .ok det =>
      if ¬ truthyStr env.rootPkg.name then
        Outcome.fail env.st0 det.2.2 "package.json#name is required"
      else if ¬ truthyStr env.rootPkg.version then
        Outcome.fail env.st0 det.2.2 "package.json#version is required"
      else if ¬ truthyStr env.rootPkg.repositoryUrl then
        Outcome.fail env.st0 det.2.2
          "package.json#repository.url is required, e.g. https://github.com/user/repo"
      else
        match getNapiCompatConfig det.1 det.2.1 env.rootPkg.napi with
        | .error e => Outcome.fail env.st0 det.2.2 e
        | .ok cfg => Outcome.withPre det.2.2 (releasePhase env cfg env.st0)

/-! Concrete states for the end-to-end scenarios of the claims. -/

/-- A current-shape (v3) napi config with a single declared target. -/
def scnNapiV3 : NapiCfg :=
  { binaryName := some "demo-bin"
    packageName := some "@scope/demo"
    targets := some ["x86_64-unknown-linux-gnu"] }

/-- Root manifest of scenario A. -/
def scnPkgA : Pkg :=
  { name := some "demo"
    version := some "1.0.0"
    repositoryUrl := some "https://github.com/u/r"
    license := some "MIT"
    files := some ["index.js"]
    napi := some scnNapiV3
    devDependencies := [("@napi-rs/cli", "3.0.0")] }

/-- Initial filesystem of scenario A: root manifest, license, workspace
file, no stub directories; the credential file already authorized. -/
def scnStA : St :=
  { dirs := []
    files := [(["package.json"], FileData.pkg scnPkgA),
              (["LICENSE"], FileData.text "MIT"),
              (["index.js"], FileData.bin),
              (["pnpm-workspace.yaml"], FileData.ws ["./packages/*"])]
    npmrc := some "//registry.npmjs.com/:_authToken=abc" }

/-- Scenario A: default-path release (no selection flags). -/
def scnEnvA : Env := { rootPkg := scnPkgA, cliVersion := "3.0.1", st0 := scnStA }

/-- Scenario B: `--root` with an empty files list. -/
def scnPkgB : Pkg := { scnPkgA with files := some [] }

def scnStB : St :=
  { scnStA with files := [(["package.json"], FileData.pkg scnPkgB),
      (["LICENSE"], FileData.text "MIT"),
      (["pnpm-workspace.yaml"], FileData.ws ["./packages/*"])] }

def scnEnvB : Env :=
  { rootPkg := scnPkgB, cliVersion := "3.0.1", argvRoot := true, st0 := scnStB }

/-- Scenario C, first shape: `--wasm` and `--napi-wasm` together. -/
def scnEnvCBoth : Env := { scnEnvA with argvWasm := true, argvNapiWasm := true }

/-- Scenario C, second shape: `--wasm` and `--wasm-web` together. -/
def scnEnvCWW : Env := { scnEnvA with argvWasm := true, argvWasmWeb := true }

/-- Scenario D: a target triple absent from the catalog. -/
def scnPkgD : Pkg :=
  { scnPkgA with napi := some { scnNapiV3 with targets := some ["bogus-triple"] } }

def scnStD : St :=
  { scnStA with files := [(["package.json"], FileData.pkg scnPkgD),
      (["LICENSE"], FileData.text "MIT"),
      (["pnpm-workspace.yaml"], FileData.ws ["./packages/*"])] }

def scnEnvD : Env := { rootPkg := scnPkgD, cliVersion := "3.0.1", st0 := scnStD }

/-- Scenario E: the stub root exists with a single per-arch directory
present, so other catalog directories are missing. -/
def scnStE : St :=
  { dirs := [["npm"], ["npm", "darwin-arm64"]]
    files := []
    npmrc := none }

/-- Scenario F (implicit claim): the stub root contains one catalog
directory and one foreign directory named b, both with manifests. -/
def scnSt9 (b : String) : St :=
  { dirs := [["npm"], ["npm", "darwin-arm64"], ["npm", b]]
    files := [(["package.json"], FileData.pkg scnPkgA),
              (["LICENSE"], FileData.text "MIT"),
              (["pnpm-workspace.yaml"], FileData.ws ["./packages/*"]),
              (["npm", "darwin-arm64", "package.json"],
                FileData.pkg { osTags := some ["darwin"], cpuTags := some ["arm64"] }),
              (["npm", b, "package.json"], FileData.pkg {})]
    npmrc := some "//registry.npmjs.com/:_authToken=abc" }

def scnEnv9 (b : String) : Env :=
  { rootPkg := scnPkgA, cliVersion := "3.0.1", st0 := scnSt9 b }

/-- The manifest stored at a path, when the file holds one. -/
def pkgAt (st : St) (p : List String) : Option Pkg :=
  match st.getFile p with
  | some (FileData.pkg q) => some q
  | _ => none

/-- The workspace glob list stored in the workspace file. -/
def wsPackages (st : St) : Option (List String) :=
  match st.getFile ["pnpm-workspace.yaml"] with
  | some (FileData.ws l) => some l
  | _ => none

/-- The normalized config of the scenario manifests. -/
def scnCfg9 : Cfg := ⟨"demo-bin", "@scope/demo", ["x86_64-unknown-linux-gnu"]⟩

/-- An empty monorepo state used by the witnesses. -/
def stEmpty : St := { dirs := [], files := [], npmrc := none }

/-- A state whose credential file exists without a registry auth line. -/
def stGateNoLine : St := { dirs := [], files := [], npmrc := some "abc" }

/-- A state whose credential file already holds a registry auth line. -/
def stGateWithLine : St :=
  { dirs := [], files := [], npmrc := some "//registry.npmjs.com/:_authToken=abc" }

/-! Theorems. -/

theorem memP_append (p : List String) (l1 l2 : List (List String)) :
    memP p (l1 ++ l2) = (memP p l1 || memP p l2) := by
  induction l1 with
  | nil => simp [memP]
  | cons q qs ih =>
    by_cases h : p = q
    · simp [memP, h]
    · simp [memP, h, ih]

theorem createStubs_dirs (st : St) :
    (createStubs st).dirs =
      st.dirs ++ [npmDirP] ++ ARCH_MAP.map (fun e => npmDirP ++ [e.1]) := by
  simp [createStubs, ARCH_MAP, St.mkdir, St.writeFile, npmDirP]

theorem createStubs_existsPath_npm (st : St) :
    (createStubs st).existsPath npmDirP = true := by
  simp [St.existsPath, St.existsDir, createStubs_dirs, memP_append, memP, npmDirP]

theorem lookupF_filter_append (q p : List String) (d : FileData)
    (l : List (List String × FileData)) :
    lookupF q (l.filter (fun e => e.1 ≠ p) ++ [(p, d)]) =
      if q = p then some d else lookupF q l := by
  induction l with
  | nil =>
    by_cases h : q = p
    · subst h; simp [lookupF]
    · simp [lookupF, h, Ne.symm h]
  | cons e es ih =>
    simp only [ne_eq, decide_not] at ih ⊢
    simp only [List.filter_cons]
    by_cases he : e.1 = p
    · rw [if_neg (by simp [he])]
      rw [ih]
      by_cases hq : q = p
      · rw [if_pos hq, if_pos hq]
      · have hne : ¬ e.1 = q := fun hx => hq (hx.symm.trans he)
        rw [if_neg hq, if_neg hq]
        simp only [lookupF]
        rw [if_neg hne]
    · rw [if_pos (by simp [he])]
      simp only [lookupF]
      by_cases heq : e.1 = q
      · have hqp : ¬ q = p := fun hx => he (heq.trans hx)
        rw [if_pos heq, if_neg hqp, if_pos heq]
      · rw [if_neg heq]
        simp only [List.append_eq]
        rw [ih]
        by_cases hq : q = p
        · rw [if_pos hq, if_pos hq]
        · rw [if_neg hq, if_neg hq, if_neg heq]

theorem getFile_writeFile (st : St) (p q : List String) (d : FileData) :
    (st.writeFile p d).getFile q = if q = p then some d else st.getFile q :=
  lookupF_filter_append q p d st.files

theorem getFile_mkdir (st : St) (p q : List String) :
    (st.mkdir p).getFile q = st.getFile q := rfl

theorem ensureNpmDirs_err (st : St) : (ensureNpmDirs st).err = none := by
  cases h : st.existsPath npmDirP <;> simp [ensureNpmDirs, h, Outcome.ok]

theorem ensureNpmDirs_noExternal (st : St) :
    ((ensureNpmDirs st).trace.all (fun e => !e.isExternal)) = true := by
  cases h : st.existsPath npmDirP with
  | true => simp [ensureNpmDirs, h, Outcome.ok, Eff.isExternal]
  | false =>
    simp only [ensureNpmDirs, h, Bool.false_eq_true, if_false, Outcome.ok]
    decide

theorem detect_ok_log (env : Env) (det : Bool × Bool × List Eff)
    (h : detectNapiCLI env = .ok det) :
    det.2.2 = [Eff.log ("Using @napi-rs/cli@" ++ env.cliVersion)] := by
  unfold detectNapiCLI at h
  split at h
  · exact Except.noConfusion h
  · split at h
    · exact Except.noConfusion h
    · split at h
      · exact Except.noConfusion h
      · injection h with h2
        subst h2
        rfl

theorem releasePhase_wasm_excl (env : Env) (cfg : Cfg) (st : St)
    (h2 : env.argvWasm = true) (h3 : env.argvNapiWasm = true) (h4 : env.argvRoot = false) :
    (releasePhase env cfg st).err.isSome = true ∧
    ((releasePhase env cfg st).trace.all (fun e => !e.isExternal)) = true := by
  simp only [releasePhase, validateTargetsPhase]
  split
  · have he := ensureNpmDirs_err st
    have hne := ensureNpmDirs_noExternal st
    simp [Outcome.andThen, Outcome.ok, he, releaseWasmBranch, h2, h3, h4, Outcome.fail,
      List.all_append, hne]
  · simp [Outcome.andThen, Outcome.fail, Eff.isExternal]

/-- C1, counterexample: in scenario A (current-shape config with the
single target x86_64-unknown-linux-gnu, no stub directories present) the
default-path release does not create exactly one stub directory: it also
creates the darwin-arm64 stub, and the number of created stub
directories is nine, not one. -/
theorem claimC1_counterexample :
    memP ["npm", "darwin-arm64"] scnEnvA.st0.dirs = false ∧
    memP ["npm", "darwin-arm64"] (napiPublishRun scnEnvA).st.dirs = true ∧
    ((napiPublishRun scnEnvA).st.dirs.filter (fun p => p.length == 2)).length ≠ 1 := by
  decide

/-- C1 (amended): in scenario A the default-path release succeeds,
creates a stub directory for every one of the nine catalog platforms
(not only the declared target), patches the linux-x64-gnu stub manifest
name to prefix-linux-x64-gnu, appends ./npm/* to the workspace packages
list, and sets the root manifest private flag to true. -/
theorem claimC1_amended_theorem :
    (napiPublishRun scnEnvA).err = none ∧
    (ARCH_MAP.all (fun e => memP ["npm", e.1] (napiPublishRun scnEnvA).st.dirs)) = true ∧
    ((napiPublishRun scnEnvA).st.dirs.filter (fun p => p.length == 2)).length = 9 ∧
    (pkgAt (napiPublishRun scnEnvA).st ["npm", "linux-x64-gnu", "package.json"]).bind Pkg.name
      = some "@scope/demo-linux-x64-gnu" ∧
    wsPackages (napiPublishRun scnEnvA).st = some ["./packages/*", "./npm/*"] ∧
    (pkgAt (napiPublishRun scnEnvA).st ["package.json"]).map Pkg.isPrivate = some true := by
  decide

/-- C2, counterexample: under --root with an empty files list, the run
does fail with the files-required error, but only after the dist
directory (absent at the start) has been created, so the failure is not
free of filesystem effects on dist. -/
theorem claimC2_counterexample :
    (napiPublishRun scnEnvB).err = some "package.json#files is required, e.g. [index.js]" ∧
    memP ["dist"] scnEnvB.st0.dirs = false ∧
    memP ["dist"] (napiPublishRun scnEnvB).st.dirs = true := by
  decide

/-- C2 (amended): under --root with an empty files list the release
fails with the files-required error after the dist directory has been
recreated and the derived publish manifest written into it, and no
publish command is issued. -/
theorem claimC2_amended_theorem :
    (napiPublishRun scnEnvB).err = some "package.json#files is required, e.g. [index.js]" ∧
    memP ["dist"] (napiPublishRun scnEnvB).st.dirs = true ∧
    (pkgAt (napiPublishRun scnEnvB).st ["dist", "package.json"]).isSome = true ∧
    ((napiPublishRun scnEnvB).trace.all
      (fun e => !(e == Eff.runCmd "npm publish --registry https://registry.npmjs.com/"))) = true := by
  decide

/-- C4: with the unrecognized triple bogus-triple configured, the run
fails with the Unsupported platform error before any filesystem
mutation (the state is unchanged), but the line labelled Supported
platforms interpolates the configured target list (bogus-triple), not
the catalog triple set, contradicting the claimed output. -/
theorem claimC4_code_bug_theorem :
    (napiPublishRun scnEnvD).err = some "Unsupported platform" ∧
    (napiPublishRun scnEnvD).st = scnEnvD.st0 ∧
    (napiPublishRun scnEnvD).trace =
      [Eff.log "Using @napi-rs/cli@3.0.1",
       Eff.log "Not support compililing these platforms config: bogus-triple",
       Eff.log "Supported platforms: bogus-triple"] := by
  decide

/-- C5, counterexample: when the stub root exists with only the
darwin-arm64 directory present, the generator creates none of the
missing catalog directories (the state is unchanged and the run is not
an error), refuting the per-entry creation claim. -/
theorem claimC5_counterexample :
    memP ["npm", "linux-x64-gnu"] scnStE.dirs = false ∧
    (ensureNpmDirs scnStE).st = scnStE ∧
    (ensureNpmDirs scnStE).err = none := by
  decide

/-- C5 (amended): stub generation is keyed on the stub root alone: when
the npm root is absent the generator creates it together with all nine
per-arch directories, each holding an empty readme and a manifest with
only the OS/CPU constraint fields; when the npm root exists it creates
nothing, even if some per-arch directories are missing. -/
theorem claimC5_amended_theorem (st : St) :
    (st.existsPath npmDirP = false →
      (ensureNpmDirs st).err = none ∧
      (ensureNpmDirs st).st.dirs =
        st.dirs ++ [npmDirP] ++ ARCH_MAP.map (fun e => npmDirP ++ [e.1]) ∧
      (∀ e ∈ ARCH_MAP,
        (ensureNpmDirs st).st.getFile (npmDirP ++ [e.1, "README.md"]) =
          some (FileData.text "") ∧
        (ensureNpmDirs st).st.getFile (npmDirP ++ [e.1, "package.json"]) =
          some (FileData.pkg (stubPkgFor e.2)))) ∧
    (st.existsPath npmDirP = true →
      (ensureNpmDirs st).st = st ∧ (ensureNpmDirs st).err = none ∧
      ((ensureNpmDirs st).trace.all (fun e => !e.isWrite)) = true) := by
  constructor
  · intro h
    refine ⟨ensureNpmDirs_err st, ?_, ?_⟩
    · simp only [ensureNpmDirs, h, Bool.false_eq_true, if_false, Outcome.ok]
      exact createStubs_dirs st
    · intro e he
      simp only [ensureNpmDirs, h, Bool.false_eq_true, if_false, Outcome.ok]
      simp only [ARCH_MAP, List.mem_cons, List.mem_singleton, List.not_mem_nil, or_false] at he
      rcases he with h1|h1|h1|h1|h1|h1|h1|h1|h1 <;> subst h1 <;>
        constructor <;>
        simp [createStubs, ARCH_MAP, getFile_writeFile, getFile_mkdir, npmDirP, stubPkgFor]
  · intro h
    simp [ensureNpmDirs, h, Outcome.ok, Eff.isWrite]

/-- C5 witness: from the empty state the generator creates the npm root
and the nine per-arch stub directories. -/
theorem claimC5_amended_witness :
    stEmpty.existsPath npmDirP = false ∧
    (ensureNpmDirs stEmpty).st.dirs =
      stEmpty.dirs ++ [npmDirP] ++ ARCH_MAP.map (fun e => npmDirP ++ [e.1]) :=
  ⟨by decide, ((claimC5_amended_theorem stEmpty).1 (by decide)).2.1⟩

/-- C6: for every starting state, running the stub generation step a
second time leaves the state of the first run unchanged, performs no
filesystem writes of its own, and is not an error. -/
theorem claimC6_theorem (st : St) :
    (ensureNpmDirs (ensureNpmDirs st).st).st = (ensureNpmDirs st).st ∧
    (ensureNpmDirs (ensureNpmDirs st).st).err = none ∧
    ((ensureNpmDirs (ensureNpmDirs st).st).trace.all (fun e => !e.isWrite)) = true := by
  cases h : st.existsPath npmDirP with
  | true => simp [ensureNpmDirs, h, Outcome.ok, Eff.isWrite]
  | false => simp [ensureNpmDirs, h, createStubs_existsPath_npm, Outcome.ok, Eff.isWrite]

/-- C7: the binary-size optimization pass never fails the run, whatever
the inputs: every failure of its inner body is caught and downgraded to
a warning log. -/
theorem claimC7_theorem (env : Env) (w : Option (List String)) (st : St) :
    (performWasmOpt env w st).err = none := by
  cases h : (runOpt env w st).err <;> simp [performWasmOpt, h, Outcome.ok]

theorem strEmpty_false_of_ne (s : String) (h : s ≠ "") : strEmpty s = false := by
  cases s with
  | mk data =>
    cases data with
    | nil => exact absurd rfl h
    | cons c cs => simp [strEmpty]

/-- C8: when the credential file exists and no line matches the
registry auth token pattern, an unset token environment variable makes
the gate fail with the missing-token error before any external
invocation and without touching the state; a set, non-empty token makes
it append the credential line (or create the file when absent) and then
delegate to the publish collaborator. -/
theorem claimC8_theorem (st : St) (content : String) (tag : Option String)
    (hfile : st.npmrc = some content)
    (hno : ∀ l ∈ splitLines content, isAuthTokenLine l = false) :
    ((publishGate st none tag).err = some missingTokenMsg ∧
     (publishGate st none tag).st = st ∧
     ((publishGate st none tag).trace.all (fun e => !e.isExternal)) = true) ∧
    (∀ tok : String, tok ≠ "" →
      (publishGate st (some tok) tag).err = none ∧
      (publishGate st (some tok) tag).st.npmrc =
        some (content ++ "\n" ++ authTokenLineFor tok) ∧
      Eff.delegatePublish (releaseOnlyCmd tag) ∈ (publishGate st (some tok) tag).trace) ∧
    (∀ st2 : St, st2.npmrc = none → ∀ tok : String, tok ≠ "" →
      (publishGate st2 (some tok) tag).err = none ∧
      (publishGate st2 (some tok) tag).st.npmrc = some (authTokenLineFor tok) ∧
      Eff.delegatePublish (releaseOnlyCmd tag) ∈ (publishGate st2 (some tok) tag).trace) := by
  have hnone : (splitLines content).find? isAuthTokenLine = none := by
    rw [List.find?_eq_none]
    intro x hx
    simp [hno x hx]
  refine ⟨?_, ?_, ?_⟩
  · simp [publishGate, hfile, hnone, Eff.isExternal, Outcome.fail]
  · intro tok htok
    simp [publishGate, hfile, hnone, strEmpty_false_of_ne tok htok, releaseOnly,
      Outcome.withPre, Outcome.ok]
  · intro st2 h2 tok htok
    simp [publishGate, h2, strEmpty_false_of_ne tok htok, releaseOnly,
      Outcome.withPre, Outcome.ok]

/-- C8 witness: at a concrete credential file without an auth line, the
gate with no token fails with the missing-token error, and with token t
it appends the credential line. -/
theorem claimC8_witness :
    (∀ l ∈ splitLines "abc", isAuthTokenLine l = false) ∧
    (publishGate stGateNoLine none none).err = some missingTokenMsg ∧
    (publishGate stGateNoLine (some "t") none).st.npmrc =
      some ("abc" ++ "\n" ++ authTokenLineFor "t") := by
  refine ⟨by decide, ?_, ?_⟩
  · exact (claimC8_theorem stGateNoLine "abc" none rfl (by decide)).1.1
  · exact ((claimC8_theorem stGateNoLine "abc" none rfl (by decide)).2.1 "t" (by decide)).2.1

/-- C10: when the credential file already holds a matching auth line,
the gate result does not depend on the token environment variable at
all, the state (credential file included) is left unchanged, and the
gate delegates to the publish collaborator. -/
theorem claimC10_theorem (st : St) (content : String) (tok1 tok2 tag : Option String)
    (hfile : st.npmrc = some content)
    (hline : ∃ l ∈ splitLines content, isAuthTokenLine l = true) :
    publishGate st tok1 tag = publishGate st tok2 tag ∧
    (publishGate st tok1 tag).st = st ∧
    (publishGate st tok1 tag).err = none ∧
    Eff.delegatePublish (releaseOnlyCmd tag) ∈ (publishGate st tok1 tag).trace := by
  have hsome : ((splitLines content).find? isAuthTokenLine).isSome := by
    rw [List.find?_isSome]
    exact hline
  obtain ⟨y, hy⟩ := Option.isSome_iff_exists.mp hsome
  simp [publishGate, hfile, hy, releaseOnly, Outcome.withPre, Outcome.ok]

/-- C3 (amended): only the --wasm and --napi-wasm pair is checked for
mutual exclusivity.  Every invocation selecting both (without the
wasm-opt shortcut or --root) fails before any external command is
invoked, and in the concrete both-flags scenario the failure is the
mutual-exclusivity error; other flag pairs are not rejected. -/
theorem claimC3_amended_theorem :
    (∀ env : Env, env.argvWasmOpt = none → env.argvWasm = true →
      env.argvNapiWasm = true → env.argvRoot = false →
      (napiPublishRun env).err.isSome = true ∧
      ((napiPublishRun env).trace.all (fun e => !e.isExternal)) = true) ∧
    (napiPublishRun scnEnvCBoth).err = some "You cannot use --wasm and --napi-wasm together" := by
  constructor
  · intro env h1 h2 h3 h4
    simp only [napiPublishRun, h1]
    cases hdet : detectNapiCLI env with
    | error e => simp [Outcome.fail]
    | ok det =>
      have htr := detect_ok_log env det hdet
      by_cases hn : truthyStr env.rootPkg.name = true
      case neg => simp [hn, Outcome.fail, htr, Eff.isExternal]
      by_cases hv : truthyStr env.rootPkg.version = true
      case neg => simp [hn, hv, Outcome.fail, htr, Eff.isExternal]
      by_cases hr : truthyStr env.rootPkg.repositoryUrl = true
      case neg => simp [hn, hv, hr, Outcome.fail, htr, Eff.isExternal]
      simp only [hn, hv, hr, Bool.not_true, if_false, if_true, Bool.false_eq_true]
      cases hcfg : getNapiCompatConfig det.1 det.2.1 env.rootPkg.napi with
      | error e => simp [Outcome.fail, htr, Eff.isExternal]
      | ok cfg =>
        have hph := releasePhase_wasm_excl env cfg env.st0 h2 h3 h4
        refine ⟨?_, ?_⟩
        · simpa [Outcome.withPre] using hph.1
        · show ((det.2.2 ++ (releasePhase env cfg env.st0).trace).all fun e => !e.isExternal) = true
          rw [htr, List.all_append, hph.2]
          simp [Eff.isExternal]
  · decide

/-- C3, counterexample: selecting --wasm together with --wasm-web is
not rejected: the run reaches the external build command and its error,
if any, is not the mutual-exclusivity error. -/
theorem claimC3_counterexample :
    Eff.runCmd "pnpm build:wasm" ∈ (napiPublishRun scnEnvCWW).trace ∧
    (napiPublishRun scnEnvCWW).err ≠ some "You cannot use --wasm and --napi-wasm together" := by
  decide

/-- C3 witness: the concrete both-flags scenario instantiates the
universal part of the amended theorem. -/
theorem claimC3_amended_witness :
    (napiPublishRun scnEnvCBoth).err.isSome = true ∧
    ((napiPublishRun scnEnvCBoth).trace.all (fun e => !e.isExternal)) = true :=
  claimC3_amended_theorem.1 scnEnvCBoth rfl rfl rfl rfl

theorem patchLoop_crash (rootPkg : Pkg) (cfg : Cfg) (n : String) (rest : List String)
    (st : St) (p : Pkg)
    (hget : st.getFile (npmDirP ++ [n, "package.json"]) = some (FileData.pkg p))
    (harch : lookupArch n = none) :
    patchLoop rootPkg cfg (n :: rest) st =
      Outcome.fail st [] "TypeError: Cannot read properties of undefined (reading desc)" := by
  simp [patchLoop, hget, harch]

theorem patchLoop_step (rootPkg : Pkg) (cfg : Cfg) (n : String) (rest : List String)
    (st : St) (p : Pkg) (info : IArch) (licd : FileData)
    (hget : st.getFile (npmDirP ++ [n, "package.json"]) = some (FileData.pkg p))
    (harch : lookupArch n = some info)
    (hlic : st.getFile ["LICENSE"] = some licd) :
    patchLoop rootPkg cfg (n :: rest) st =
      Outcome.withPre
        [Eff.copyE ["LICENSE"] (npmDirP ++ [n] ++ ["LICENSE"]),
         Eff.writeE (npmDirP ++ [n] ++ ["README.md"]),
         Eff.writeE (npmDirP ++ [n] ++ ["package.json"]),
         Eff.log ("Patched: " ++ (cfg.packageName ++ "-" ++ n))]
        (patchLoop rootPkg cfg rest
          ((((st.writeFile (npmDirP ++ [n] ++ ["LICENSE"]) licd).writeFile
              (npmDirP ++ [n] ++ ["README.md"])
              (FileData.text ("# `" ++ (cfg.packageName ++ "-" ++ n) ++
                "`\n\nThis is the `" ++ info.desc ++ "` binary for [`" ++
                rootPkg.name.getD "" ++ "`](" ++ rootPkg.repositoryUrl.getD "" ++ ").\n"))).writeFile
              (npmDirP ++ [n] ++ ["package.json"])
              (FileData.pkg (assignGlobalProps rootPkg
                { p with
                  name := some (cfg.packageName ++ "-" ++ n)
                  description := some ("This is the " ++ info.desc ++ " binary for " ++
                    rootPkg.name.getD "" ++ ".")
                  version := rootPkg.version
                  main := some (cfg.binaryName ++ "." ++ n ++ ".node")
                  files := some [cfg.binaryName ++ "." ++ n ++ ".node"] }))))) := by
  have h2 := hlic
  simp only [St.getFile] at h2
  have hex : st.existsPath ["LICENSE"] = true := by
    simp [St.existsPath, St.existsFile, h2]
  simp only [patchLoop]
  simp [hget, harch, hex, hlic, Outcome.andThen, Outcome.ok, Outcome.withPre]

/-- C9: if the stub root contains, besides a catalog directory, a
directory whose basename is not a catalog key (and is not .DS_Store),
the default path crashes on the missing catalog descriptor partway
through the patch loop: the run fails with the TypeError, the catalog
directory processed earlier is already patched, and no publish (nor any
other external command) has been performed. -/
theorem claimC9_theorem (b : String)
    (hb1 : lookupArch b = none) (hb2 : b ≠ ".DS_Store") :
    (napiPublishRun (scnEnv9 b)).err =
      some "TypeError: Cannot read properties of undefined (reading desc)" ∧
    (pkgAt (napiPublishRun (scnEnv9 b)).st ["npm", "darwin-arm64", "package.json"]).bind Pkg.name
      = some "@scope/demo-darwin-arm64" ∧
    ((napiPublishRun (scnEnv9 b)).trace.all (fun e => !e.isExternal)) = true := by
  have hbd : b ≠ "darwin-arm64" := by
    intro h
    rw [h] at hb1
    exact absurd hb1 (by decide)
  have hbd2 : "darwin-arm64" ≠ b := Ne.symm hbd
  have hrun : napiPublishRun (scnEnv9 b) =
      Outcome.withPre [Eff.log "Using @napi-rs/cli@3.0.1"]
        (Outcome.withPre [Eff.log "The npm dir exists"]
          (defaultBranch (scnEnv9 b) scnCfg9
            (((scnSt9 b).childNames npmDirP).filter (fun n => n ≠ ".DS_Store"))
            (scnSt9 b))) := rfl
  have hnames : (((scnSt9 b).childNames npmDirP).filter (fun n => n ≠ ".DS_Store")) =
      ["darwin-arm64", b] := by
    simp [St.childNames, scnSt9, npmDirP, hb2]
  have hget2 : ∀ d1 d2 d3 : FileData,
      (((((scnSt9 b).writeFile (npmDirP ++ ["darwin-arm64"] ++ ["LICENSE"]) d1).writeFile
          (npmDirP ++ ["darwin-arm64"] ++ ["README.md"]) d2).writeFile
          (npmDirP ++ ["darwin-arm64"] ++ ["package.json"]) d3)).getFile
        (npmDirP ++ [b, "package.json"]) = some (FileData.pkg {}) := by
    intro d1 d2 d3
    simp [getFile_writeFile, St.getFile, scnSt9, lookupF, npmDirP, hbd, hbd2]
  rw [hrun, hnames]
  simp only [defaultBranch, scnEnv9]
  rw [patchLoop_step scnPkgA scnCfg9 "darwin-arm64" [b] (scnSt9 b)
    { osTags := some ["darwin"], cpuTags := some ["arm64"] }
    ⟨"macOS ARM 64-bit", ["darwin"], ["arm64"], "aarch64-apple-darwin"⟩
    (FileData.text "MIT") rfl rfl rfl]
  rw [patchLoop_crash scnPkgA scnCfg9 b [] _ {} (hget2 _ _ _) hb1]
  refine ⟨rfl, ?_, ?_⟩
  · simp [pkgAt, Outcome.withPre, Outcome.andThen, Outcome.fail, getFile_writeFile,
      assignGlobalProps, scnPkgA, npmDirP, scnCfg9]
  · simp [Outcome.withPre, Outcome.andThen, Outcome.fail, Eff.isExternal]

/-- C9 witness: the foreign stub directory named foo triggers the crash
with the darwin-arm64 stub already patched. -/
theorem claimC9_witness :
    lookupArch "foo" = none ∧ "foo" ≠ ".DS_Store" ∧
    (napiPublishRun (scnEnv9 "foo")).err =
      some "TypeError: Cannot read properties of undefined (reading desc)" :=
  ⟨by decide, by decide, ((claimC9_theorem) "foo" (by decide) (by decide)).1⟩

/-- C10 witness: at a concrete credential file holding the auth line,
the gate ignores the token value and leaves the state unchanged. -/
theorem claimC10_witness :
    (∃ l ∈ splitLines "//registry.npmjs.com/:_authToken=abc", isAuthTokenLine l = true) ∧
    publishGate stGateWithLine (some "x") none = publishGate stGateWithLine none none ∧
    (publishGate stGateWithLine (some "x") none).st = stGateWithLine := by
  refine ⟨by decide, ?_, ?_⟩
  · exact (claimC10_theorem stGateWithLine _ (some "x") none none rfl (by decide)).1
  · exact (claimC10_theorem stGateWithLine _ (some "x") none none rfl (by decide)).2.1

end Vary
